import Mathlib

/-!
Shallow embedding of the B3RB line-follower node
(`b3rb_ros_line_follower/b3rb_ros_line_follower.py`).

Numbers are modelled exactly: Python floats become `ℚ` where the code only
does field arithmetic and comparisons, and `ℝ` where the code calls
trigonometric functions or the regression score.  Each definition mirrors
one piece of the source: module constants, the message types, the mutable
node state (`LineFollower`), the edge-vector handler
(`edge_vectors_callback`, split into its lane-deviation part and its
override part exactly as the statements appear in sequence), and the LIDAR
handler (`lidar_callback`, split into range preprocessing, the
linear-regression ramp test and the sectored obstacle scan).
-/

/- Module-level constants of the source file. -/

def LEFT_TURN : ℚ := 1

def RIGHT_TURN : ℚ := -1

def TURN_MIN : ℚ := 0

def TURN_MAX : ℚ := 1

def SPEED_MIN : ℚ := 0

def SPEED_MAX : ℚ := 1

def SPEED_25_PERCENT : ℚ := SPEED_MAX / 4

def SPEED_50_PERCENT : ℚ := SPEED_25_PERCENT * 2

def SPEED_75_PERCENT : ℚ := SPEED_25_PERCENT * 3

def THRESHOLD_OBSTACLE_VERTICAL : ℚ := 1

def THRESHOLD_OBSTACLE_HORIZONTAL : ℚ := (1 / 4) / 2

def SPEED_MULT_DEFAULT : ℚ := 1

def MIN_POINTS_FOR_GROUND : ℕ := 10

noncomputable def R_SQUARED_THRESHOLD : ℝ := 9 / 10

/- Message types (data contracts of the external collaborators). -/

/-- A 2D point of an edge vector, in image pixel coordinates. -/
structure Point where
  x : ℚ
  y : ℚ

/-- The `EdgeVectors` message: a count, the image width, and up to two
pairs of endpoints. -/
structure EdgeVectors where
  vector_count : ℕ
  image_width : ℚ
  vector_1 : Point × Point
  vector_2 : Point × Point

/-- The `TrafficStatus` message (only the stop-sign flag is read). -/
structure TrafficStatus where
  stop_sign : Bool

/-- The `LaserScan` message fields the handler reads. -/
structure LaserScan where
  ranges : List ℚ
  range_min : ℚ
  range_max : ℚ
  angle_increment : ℚ

/-- The `Joy` message produced by `rover_move_manual_mode`. -/
structure Joy where
  buttons : List ℕ
  axes : List ℚ

/-- The mutable state of the `LineFollower` node. -/
structure LineFollower where
  traffic_status : TrafficStatus
  obstacle_detected : Bool
  ramp_detected : Bool
  speed_mult : ℚ
  prev_turn : ℚ

/-- The state set up in `__init__`. -/
def initLineFollower : LineFollower :=
  { traffic_status := ⟨false⟩
    obstacle_detected := false
    ramp_detected := false
    speed_mult := SPEED_MULT_DEFAULT
    prev_turn := TURN_MIN }

/-- `rover_move_manual_mode`: packs speed and turn into the fixed-shape
`Joy` message (axis 1 is speed, axis 3 is turn). -/
def rover_move_manual_mode (speed turn : ℚ) : Joy :=
  { buttons := [1, 0, 0, 0, 0, 0, 0, 1]
    axes := [0, speed, 0, turn] }

/-- The speed slot of an emitted `Joy` message (axis index 1). -/
def Joy.speedAxis (msg : Joy) : ℚ := msg.axes.getD 1 0

/-- The turn slot of an emitted `Joy` message (axis index 3). -/
def Joy.turnAxis (msg : Joy) : ℚ := msg.axes.getD 3 0

/-- Result of the lane-deviation part of `edge_vectors_callback`: the
speed and turn as computed just before the override checks, together with
the node state after the branch-local mutations (ESC multiplier and
`prev_turn`). -/
structure EstimatorResult where
  speed : ℚ
  turn : ℚ
  state : LineFollower

/-- The part of `edge_vectors_callback` before the override checks: the
initialisation `speed = SPEED_MAX`, `turn = TURN_MIN`, and the three
mutually exclusive `vector_count` branches, transcribed statement by
statement. -/
def laneDeviationEstimator (self : LineFollower) (vectors : EdgeVectors) : EstimatorResult :=
  let speed := SPEED_MAX
  let turn := TURN_MIN
  let half_width := vectors.image_width / 2
  if vectors.vector_count = 1 then
    let deviation := (vectors.vector_1.2).x - (vectors.vector_1.1).x
    let turn := deviation / vectors.image_width
    let self :=
      if turn < self.prev_turn ∧ self.speed_mult < 3/2 then
        { self with speed_mult := self.speed_mult + 3/100 }
      else if self.prev_turn ≤ turn ∧ 1/2 < self.speed_mult then
        { self with speed_mult := self.speed_mult - 3/100 }
      else
        self
    let speed := (3/2 * TURN_MAX - turn) / (3/2 * TURN_MAX)
    let speed := speed * self.speed_mult
    ⟨speed, turn, { self with prev_turn := turn }⟩
  else if vectors.vector_count = 2 then
    let middle_x_left := ((vectors.vector_1.1).x + (vectors.vector_1.2).x) / 2
    let middle_x_right := ((vectors.vector_2.1).x + (vectors.vector_2.2).x) / 2
    let middle_x := (middle_x_left + middle_x_right) / 2
    let deviation := half_width - middle_x
    let turn := deviation / half_width
    ⟨speed, turn,
      { self with
        speed_mult := (SPEED_MULT_DEFAULT + self.speed_mult) / 2
        prev_turn := TURN_MIN }⟩
  else
    ⟨speed, turn, self⟩

/-- The override checks at the end of `edge_vectors_callback`: stop sign,
then ramp, then obstacle, each unconditionally reassigning `speed` when
its flag is true; `turn` is passed through. -/
def commandArbiter (self : LineFollower) (speed turn : ℚ) : ℚ × ℚ :=
  let speed := if self.traffic_status.stop_sign = true then SPEED_MIN else speed
  let speed := if self.ramp_detected = true then SPEED_50_PERCENT else speed
  let speed := if self.obstacle_detected = true then SPEED_25_PERCENT else speed
  (speed, turn)

/-- `edge_vectors_callback`: lane-deviation computation, override checks,
and emission via `rover_move_manual_mode`.  Returns the state after the
call and the emitted `Joy` message. -/
def edge_vectors_callback (self : LineFollower) (message : EdgeVectors) :
    LineFollower × Joy :=
  let est := laneDeviationEstimator self message
  let cmd := commandArbiter est.state est.speed est.turn
  (est.state, rover_move_manual_mode cmd.1 cmd.2)

/-- `traffic_status_callback`: stores the received message. -/
def traffic_status_callback (self : LineFollower) (message : TrafficStatus) :
    LineFollower :=
  { self with traffic_status := message }

/-- The state transition of one edge-vector update (the emitted command
dropped). -/
def edgeStep (self : LineFollower) (message : EdgeVectors) : LineFollower :=
  (edge_vectors_callback self message).1

/- `lidar_callback`: range preprocessing. -/

/-- The validity filter of `lidar_callback`:
`[r for r in message.ranges if message.range_min <= r < message.range_max]`. -/
def validRangesOf (message : LaserScan) : List ℚ :=
  message.ranges.filter fun r => decide (message.range_min ≤ r ∧ r < message.range_max)

/-- The middle-half slice `valid_ranges[int(length / 4): int(3 * length / 4)]`
(Python truncation of a nonnegative float is the floor, hence natural
division). -/
def middleHalf (l : List ℚ) : List ℚ :=
  (l.drop (l.length / 4)).take (3 * l.length / 4 - l.length / 4)

/-- The preprocessed range sequence `ranges` used by both detectors. -/
def preprocessedRanges (message : LaserScan) : List ℚ :=
  middleHalf (validRangesOf message)

/- `lidar_callback`: ground/ramp classification by linear regression. -/

/-- The Cartesian x-coordinate of sample `i`:
`ranges[i] * cos(i * angle_increment)`. -/
noncomputable def scanX (ranges : List ℚ) (angle_increment : ℚ) (i : ℕ) : ℝ :=
  ((ranges.getD i 0 : ℚ) : ℝ) * Real.cos ((i : ℝ) * ((angle_increment : ℚ) : ℝ))

/-- The Cartesian y-coordinate of sample `i`:
`ranges[i] * sin(i * angle_increment)`. -/
noncomputable def scanY (ranges : List ℚ) (angle_increment : ℚ) (i : ℕ) : ℝ :=
  ((ranges.getD i 0 : ℚ) : ℝ) * Real.sin ((i : ℝ) * ((angle_increment : ℚ) : ℝ))

/-- Mean of the first `n` values of a sample. -/
noncomputable def sampleMean (f : ℕ → ℝ) (n : ℕ) : ℝ :=
  (∑ i in Finset.range n, f i) / n

/-- Centered sum of squares of the regressor (`Sxx`). -/
noncomputable def sxx (x : ℕ → ℝ) (n : ℕ) : ℝ :=
  ∑ i in Finset.range n, (x i - sampleMean x n) ^ 2

/-- Centered cross sum (`Sxy`). -/
noncomputable def sxy (x y : ℕ → ℝ) (n : ℕ) : ℝ :=
  ∑ i in Finset.range n, (x i - sampleMean x n) * (y i - sampleMean y n)

/-- The ordinary-least-squares slope fitted by
`LinearRegression().fit(x.reshape(-1, 1), y)`. -/
noncomputable def olsSlope (x y : ℕ → ℝ) (n : ℕ) : ℝ :=
  sxy x y n / sxx x n

/-- The ordinary-least-squares intercept. -/
noncomputable def olsIntercept (x y : ℕ → ℝ) (n : ℕ) : ℝ :=
  sampleMean y n - olsSlope x y n * sampleMean x n

/-- Residual sum of squares of the fitted line. -/
noncomputable def ssRes (x y : ℕ → ℝ) (n : ℕ) : ℝ :=
  ∑ i in Finset.range n, (y i - (olsSlope x y n * x i + olsIntercept x y n)) ^ 2

/-- Total sum of squares of the response. -/
noncomputable def ssTot (y : ℕ → ℝ) (n : ℕ) : ℝ :=
  ∑ i in Finset.range n, (y i - sampleMean y n) ^ 2

open Classical in
/-- The coefficient of determination returned by `reg.score`, following the
r2_score convention of scikit-learn: a zero residual sum gives 1 (also
when the total sum is zero), a nonzero residual sum with a zero total sum
gives 0, and otherwise it is `1 - ssRes / ssTot`. -/
noncomputable def rSquared (x y : ℕ → ℝ) (n : ℕ) : ℝ :=
  if ssRes x y n = 0 then 1
  else if ssTot y n = 0 then 0
  else 1 - ssRes x y n / ssTot y n

open Classical in
/-- The ramp branch of `lidar_callback`: with at least
`MIN_POINTS_FOR_GROUND` preprocessed points, fit the Cartesian projection
and compare the score against `R_SQUARED_THRESHOLD`; otherwise no ramp. -/
noncomputable def rampDetection (ranges : List ℚ) (angle_increment : ℚ) : Bool :=
  if MIN_POINTS_FOR_GROUND ≤ ranges.length then
    if R_SQUARED_THRESHOLD <
        rSquared (scanX ranges angle_increment) (scanY ranges angle_increment)
          ranges.length then
      true
    else
      false
  else
    false

/- `lidar_callback`: sectored obstacle scan. -/

/-- `theta = atan(shield_vertical / shield_horizontal)` with the fixed
shield dimensions 4 and 1. -/
noncomputable def shieldTheta : ℝ := Real.arctan (4 / 1)

/-- The lower sector boundary `int(length * theta / math.pi)`. -/
noncomputable def frontLoIndex (n : ℕ) : ℕ :=
  (⌊(n : ℝ) * shieldTheta / Real.pi⌋).toNat

/-- The upper sector boundary `int(length * (math.pi - theta) / math.pi)`. -/
noncomputable def frontHiIndex (n : ℕ) : ℕ :=
  (⌊(n : ℝ) * (Real.pi - shieldTheta) / Real.pi⌋).toNat

/-- `front_ranges = ranges[int(length * theta / pi): int(length * (pi - theta) / pi)]`. -/
noncomputable def frontRanges (l : List ℚ) : List ℚ :=
  (l.drop (frontLoIndex l.length)).take (frontHiIndex l.length - frontLoIndex l.length)

/-- `side_ranges_right = ranges[0: int(length * theta / pi)]`. -/
noncomputable def sideRangesRight (l : List ℚ) : List ℚ :=
  l.take (frontLoIndex l.length)

/-- `side_ranges_left = ranges[int(length * (pi - theta) / pi):]`. -/
noncomputable def sideRangesLeft (l : List ℚ) : List ℚ :=
  l.drop (frontHiIndex l.length)

/-- The obstacle scan of `lidar_callback`: the front loop with its early
return, then the left sector in reversed order, then the right sector;
each loop is an existence scan, so it is transcribed with `List.any`. -/
noncomputable def obstacleDetection (l : List ℚ) : Bool :=
  ((frontRanges l).any fun r => decide (r < THRESHOLD_OBSTACLE_VERTICAL)) ||
    ((sideRangesLeft l).reverse.any fun r => decide (r < THRESHOLD_OBSTACLE_HORIZONTAL)) ||
    ((sideRangesRight l).any fun r => decide (r < THRESHOLD_OBSTACLE_HORIZONTAL))

/-- `lidar_callback`: preprocess the scan, then unconditionally recompute
both hazard flags from it (the ramp branch runs first; the obstacle scan
either hits a sample and returns with the flag set, or falls through to
clearing the flag). -/
noncomputable def lidar_callback (self : LineFollower) (message : LaserScan) :
    LineFollower :=
  let ranges := preprocessedRanges message
  { self with
    ramp_detected := rampDetection ranges message.angle_increment
    obstacle_detected := obstacleDetection ranges }

/- Concrete messages used in counterexamples and witnesses. -/

/-- A single-curve message whose endpoint x-coordinates 100 and 0 lie in
`[0, image_width]` with `image_width = 100`, giving `turn = -1`. -/
def outOfRangeMsg : EdgeVectors :=
  ⟨1, 100, (⟨100, 0⟩, ⟨0, 0⟩), (⟨0, 0⟩, ⟨0, 0⟩)⟩

/-- A single-curve message with coincident endpoint x-coordinates, giving
`turn = 0`, so that every update takes the braking branch. -/
def brakingMsg : EdgeVectors :=
  ⟨1, 1, (⟨0, 0⟩, ⟨0, 0⟩), (⟨0, 0⟩, ⟨0, 0⟩)⟩

/- Shared helper lemmas. -/

/-- One update on `brakingMsg` from a state with neutral previous turn and
a multiplier still above `1/2` takes the braking branch: the multiplier
drops by `3/100` and `prev_turn` stays neutral. -/
theorem edgeStep_brakingMsg (s : LineFollower) (hp : s.prev_turn = 0)
    (hm : 1/2 < s.speed_mult) :
    edgeStep s brakingMsg =
      { s with speed_mult := s.speed_mult - 3/100, prev_turn := 0 } := by
  simp only [edgeStep, edge_vectors_callback, laneDeviationEstimator, brakingMsg,
    hp, TURN_MIN, SPEED_MAX, SPEED_MULT_DEFAULT]
  norm_num [hm]

/-- The lane-deviation part of `edge_vectors_callback` never touches the
three hazard/traffic flags. -/
theorem laneDeviationEstimator_preserves_flags (self : LineFollower) (m : EdgeVectors) :
    (laneDeviationEstimator self m).state.traffic_status = self.traffic_status ∧
    (laneDeviationEstimator self m).state.ramp_detected = self.ramp_detected ∧
    (laneDeviationEstimator self m).state.obstacle_detected = self.obstacle_detected := by
  unfold laneDeviationEstimator
  dsimp only
  split_ifs <;> simp

/-- The multiplier after the lane-deviation part is one of: unchanged,
raised by `3/100` (only from below `3/2`), lowered by `3/100` (only from
above `1/2`), or averaged with the default. -/
theorem laneDeviationEstimator_speed_mult_cases (self : LineFollower) (m : EdgeVectors) :
    (laneDeviationEstimator self m).state.speed_mult = self.speed_mult ∨
    ((laneDeviationEstimator self m).state.speed_mult = self.speed_mult + 3/100 ∧
      self.speed_mult < 3/2) ∨
    ((laneDeviationEstimator self m).state.speed_mult = self.speed_mult - 3/100 ∧
      1/2 < self.speed_mult) ∨
    (laneDeviationEstimator self m).state.speed_mult =
      (SPEED_MULT_DEFAULT + self.speed_mult) / 2 := by
  unfold laneDeviationEstimator
  dsimp only
  split_ifs with h1 h2 h3 h4
  · exact Or.inr (Or.inl ⟨rfl, h2.2⟩)
  · exact Or.inr (Or.inr (Or.inl ⟨rfl, h3.2⟩))
  · exact Or.inl rfl
  · exact Or.inr (Or.inr (Or.inr rfl))
  · exact Or.inl rfl

/-- One edge-vector update keeps the multiplier strictly between `47/100`
and `153/100`. -/
theorem edgeStep_speed_mult_bounds (self : LineFollower) (m : EdgeVectors)
    (hlo : 47/100 < self.speed_mult) (hhi : self.speed_mult < 153/100) :
    47/100 < (edgeStep self m).speed_mult ∧
      (edgeStep self m).speed_mult < 153/100 := by
  have hstep : (edgeStep self m).speed_mult =
      (laneDeviationEstimator self m).state.speed_mult := rfl
  have hd : SPEED_MULT_DEFAULT = 1 := rfl
  rw [hstep]
  rcases laneDeviationEstimator_speed_mult_cases self m with
    h | ⟨h, hb⟩ | ⟨h, hb⟩ | h <;> rw [h] <;>
    exact ⟨by linarith [hd], by linarith [hd]⟩

/-- Any number of edge-vector updates from a state inside the open
interval keeps the multiplier inside it. -/
theorem foldl_edgeStep_speed_mult_bounds (msgs : List EdgeVectors) :
    ∀ s : LineFollower, 47/100 < s.speed_mult → s.speed_mult < 153/100 →
      47/100 < (msgs.foldl edgeStep s).speed_mult ∧
        (msgs.foldl edgeStep s).speed_mult < 153/100 := by
  induction msgs with
  | nil => exact fun s h1 h2 => ⟨h1, h2⟩
  | cons m rest ih =>
    intro s h1 h2
    simp only [List.foldl_cons]
    obtain ⟨g1, g2⟩ := edgeStep_speed_mult_bounds s m h1 h2
    exact ih _ g1 g2

/- Claim theorems. -/

/-- C1: the claim that `edge_vectors_callback` always emits `speed` and
`turn` in `[-1, 1]` fails on the code: from the initial state, the
single-curve message `outOfRangeMsg` (endpoint x-coordinates 100 and 0,
both inside `[0, 100]`, `image_width = 100 > 0`) gives `turn = -1`, an
accelerating multiplier update to `103/100`, and an emitted speed of
`(3/2 + 1) / (3/2) * 103/100 = 103/60 > 1`.  This contradicts the
documented `[-1, +1]` range of the `rover_move_manual_mode` arguments. -/
theorem C1_speed_exceeds_one :
    (edge_vectors_callback initLineFollower outOfRangeMsg).2.speedAxis = 103/60 ∧
    1 < (edge_vectors_callback initLineFollower outOfRangeMsg).2.speedAxis ∧
    (edge_vectors_callback initLineFollower outOfRangeMsg).2.turnAxis = -1 := by
  norm_num [edge_vectors_callback, laneDeviationEstimator, commandArbiter,
    rover_move_manual_mode, Joy.speedAxis, Joy.turnAxis, initLineFollower,
    outOfRangeMsg, SPEED_MAX, SPEED_MIN, TURN_MIN, TURN_MAX,
    SPEED_MULT_DEFAULT, SPEED_50_PERCENT, SPEED_25_PERCENT, List.getD]

/-- C2 counterexample: seventeen successive single-curve updates with
`turn = 0` each take the braking branch (the guard still fires at
multiplier `13/25 = 0.52 > 0.5`), driving `speed_mult` to
`49/100 = 0.49 < 0.5`, below the range `[0.5, 1.5]` stated by the claim. -/
theorem C2_speed_mult_leaves_range :
    ((List.replicate 17 brakingMsg).foldl edgeStep initLineFollower).speed_mult = 49/100 ∧
    ((List.replicate 17 brakingMsg).foldl edgeStep initLineFollower).speed_mult < 1/2 := by
  norm_num [List.replicate, List.foldl, edgeStep_brakingMsg, initLineFollower,
    SPEED_MULT_DEFAULT, TURN_MIN]

/-- C2 (amended): starting from the initial multiplier `1`, every
sequence of edge-vector updates keeps `speed_mult` strictly between
`47/100` and `153/100`; the stated range `[1/2, 3/2]` can be left by one
further guarded step (see the counterexample), but never by more than
`3/100`. -/
theorem C2_speed_mult_bounded (msgs : List EdgeVectors) :
    47/100 < (msgs.foldl edgeStep initLineFollower).speed_mult ∧
      (msgs.foldl edgeStep initLineFollower).speed_mult < 153/100 :=
  foldl_edgeStep_speed_mult_bounds msgs initLineFollower
    (by norm_num [initLineFollower, SPEED_MULT_DEFAULT])
    (by norm_num [initLineFollower, SPEED_MULT_DEFAULT])

/-- C3: when the stop-sign, ramp and obstacle flags are simultaneously
true, the overrides run in that fixed order and each unconditionally
reassigns `speed`, so the emitted speed is the obstacle value
`SPEED_25_PERCENT = 1/4`, for every edge-vector message and every
multiplier/previous-turn state. -/
theorem C3_override_precedence (mult prev : ℚ) (m : EdgeVectors) :
    (edge_vectors_callback ⟨⟨true⟩, true, true, mult, prev⟩ m).2.speedAxis =
      SPEED_25_PERCENT := by
  obtain ⟨-, -, ho⟩ :=
    laneDeviationEstimator_preserves_flags ⟨⟨true⟩, true, true, mult, prev⟩ m
  simp [edge_vectors_callback, commandArbiter, Joy.speedAxis,
    rover_move_manual_mode, ho]

/-- C4: with `vector_count = 1` and no override flag set, the emitted
turn is `(x2 - x1) / image_width` for the endpoint x-coordinates of the pair;
the multiplier is raised by `3/100` exactly when the new turn is below
`prev_turn` and the multiplier is below `3/2`, lowered by `3/100` exactly
when the new turn is not below `prev_turn` and the multiplier is above
`1/2` (the two guards are mutually exclusive, so the `else if` chain is
that characterisation); the emitted speed is `(3/2 - turn) / (3/2)` times
the updated multiplier; and `prev_turn` becomes the new turn. -/
theorem C4_single_vector_semantics (self : LineFollower) (m : EdgeVectors)
    (hc : m.vector_count = 1)
    (hs : self.traffic_status.stop_sign = false)
    (hr : self.ramp_detected = false)
    (ho : self.obstacle_detected = false) :
    (edge_vectors_callback self m).2.turnAxis =
      ((m.vector_1.2).x - (m.vector_1.1).x) / m.image_width ∧
    (edge_vectors_callback self m).1.speed_mult =
      (if ((m.vector_1.2).x - (m.vector_1.1).x) / m.image_width < self.prev_turn ∧
          self.speed_mult < 3/2 then
        self.speed_mult + 3/100
      else if self.prev_turn ≤ ((m.vector_1.2).x - (m.vector_1.1).x) / m.image_width ∧
          1/2 < self.speed_mult then
        self.speed_mult - 3/100
      else
        self.speed_mult) ∧
    (edge_vectors_callback self m).2.speedAxis =
      (3/2 - ((m.vector_1.2).x - (m.vector_1.1).x) / m.image_width) / (3/2) *
        (edge_vectors_callback self m).1.speed_mult ∧
    (edge_vectors_callback self m).1.prev_turn =
      ((m.vector_1.2).x - (m.vector_1.1).x) / m.image_width := by
  obtain ⟨ht, hrr, hoo⟩ := laneDeviationEstimator_preserves_flags self m
  simp only [edge_vectors_callback, commandArbiter, rover_move_manual_mode,
    Joy.speedAxis, Joy.turnAxis, laneDeviationEstimator, hc, ht, hs, hrr, hr,
    hoo, ho, TURN_MAX, mul_one, List.getD]
  norm_num
  split_ifs <;> simp_all

/-- A single-curve message with `image_width = 2` and endpoint
x-coordinates 0 and 1, giving `turn = 1/2`. -/
def singleCurveMsg : EdgeVectors :=
  ⟨1, 2, (⟨0, 0⟩, ⟨1, 0⟩), (⟨0, 0⟩, ⟨0, 0⟩)⟩

/-- C4 witness: the hypotheses of `C4_single_vector_semantics` hold at the
initial state and `singleCurveMsg`, and so does the instantiated
conclusion. -/
theorem C4_single_vector_semantics_witness :
    singleCurveMsg.vector_count = 1 ∧
    initLineFollower.traffic_status.stop_sign = false ∧
    initLineFollower.ramp_detected = false ∧
    initLineFollower.obstacle_detected = false ∧
    ((edge_vectors_callback initLineFollower singleCurveMsg).2.turnAxis =
      ((singleCurveMsg.vector_1.2).x - (singleCurveMsg.vector_1.1).x) /
        singleCurveMsg.image_width ∧
    (edge_vectors_callback initLineFollower singleCurveMsg).1.speed_mult =
      (if ((singleCurveMsg.vector_1.2).x - (singleCurveMsg.vector_1.1).x) /
            singleCurveMsg.image_width < initLineFollower.prev_turn ∧
          initLineFollower.speed_mult < 3/2 then
        initLineFollower.speed_mult + 3/100
      else if initLineFollower.prev_turn ≤
            ((singleCurveMsg.vector_1.2).x - (singleCurveMsg.vector_1.1).x) /
              singleCurveMsg.image_width ∧
          1/2 < initLineFollower.speed_mult then
        initLineFollower.speed_mult - 3/100
      else
        initLineFollower.speed_mult) ∧
    (edge_vectors_callback initLineFollower singleCurveMsg).2.speedAxis =
      (3/2 - ((singleCurveMsg.vector_1.2).x - (singleCurveMsg.vector_1.1).x) /
          singleCurveMsg.image_width) / (3/2) *
        (edge_vectors_callback initLineFollower singleCurveMsg).1.speed_mult ∧
    (edge_vectors_callback initLineFollower singleCurveMsg).1.prev_turn =
      ((singleCurveMsg.vector_1.2).x - (singleCurveMsg.vector_1.1).x) /
        singleCurveMsg.image_width) :=
  ⟨rfl, rfl, rfl, rfl,
    C4_single_vector_semantics initLineFollower singleCurveMsg rfl rfl rfl rfl⟩

/-- C7: with `vector_count = 2` and a positive image width, the emitted
turn is the deviation of the mean of the two pair midpoint
x-coordinates from the image half-width, normalised by the half-width;
when the midpoints average exactly to the half-width the turn is zero. -/
theorem C7_two_vector_turn (self : LineFollower) (m : EdgeVectors)
    (hc : m.vector_count = 2) (hw : 0 < m.image_width) :
    (edge_vectors_callback self m).2.turnAxis =
      (m.image_width / 2 -
        (((m.vector_1.1).x + (m.vector_1.2).x) / 2 +
          ((m.vector_2.1).x + (m.vector_2.2).x) / 2) / 2) / (m.image_width / 2) ∧
    ((((m.vector_1.1).x + (m.vector_1.2).x) / 2 +
        ((m.vector_2.1).x + (m.vector_2.2).x) / 2) / 2 = m.image_width / 2 →
      (edge_vectors_callback self m).2.turnAxis = 0) := by
  have hne : ¬ m.vector_count = 1 := by omega
  constructor
  · simp [edge_vectors_callback, commandArbiter, rover_move_manual_mode,
      Joy.turnAxis, laneDeviationEstimator, hc, hne, List.getD]
  · intro hsym
    simp [edge_vectors_callback, commandArbiter, rover_move_manual_mode,
      Joy.turnAxis, laneDeviationEstimator, hc, hne, List.getD, hsym]

/-- A two-edge message whose vector pairs are symmetric about the image
centre: midpoints 1 and 3, average 2, half-width 2. -/
def symmetricMsg : EdgeVectors :=
  ⟨2, 4, (⟨1, 0⟩, ⟨1, 0⟩), (⟨3, 0⟩, ⟨3, 0⟩)⟩

/-- C7 witness: the hypotheses of `C7_two_vector_turn` hold at the initial
state and `symmetricMsg`, and so does the instantiated conclusion. -/
theorem C7_two_vector_turn_witness :
    symmetricMsg.vector_count = 2 ∧
    0 < symmetricMsg.image_width ∧
    ((edge_vectors_callback initLineFollower symmetricMsg).2.turnAxis =
      (symmetricMsg.image_width / 2 -
        (((symmetricMsg.vector_1.1).x + (symmetricMsg.vector_1.2).x) / 2 +
          ((symmetricMsg.vector_2.1).x + (symmetricMsg.vector_2.2).x) / 2) / 2) /
        (symmetricMsg.image_width / 2) ∧
    ((((symmetricMsg.vector_1.1).x + (symmetricMsg.vector_1.2).x) / 2 +
        ((symmetricMsg.vector_2.1).x + (symmetricMsg.vector_2.2).x) / 2) / 2 =
        symmetricMsg.image_width / 2 →
      (edge_vectors_callback initLineFollower symmetricMsg).2.turnAxis = 0)) :=
  ⟨rfl, by norm_num [symmetricMsg],
    C7_two_vector_turn initLineFollower symmetricMsg rfl
      (by norm_num [symmetricMsg])⟩

/-- C5: whenever the preprocessed scan has fewer than
`MIN_POINTS_FOR_GROUND = 10` points, the ramp branch reports no ramp,
whatever the point values and the prior state. -/
theorem C5_ramp_false_on_few_points (self : LineFollower) (m : LaserScan)
    (h : (preprocessedRanges m).length < MIN_POINTS_FOR_GROUND) :
    (lidar_callback self m).ramp_detected = false := by
  have hnot : ¬ MIN_POINTS_FOR_GROUND ≤ (preprocessedRanges m).length :=
    Nat.not_le.mpr h
  simp [lidar_callback, rampDetection, hnot]

/-- A scan whose preprocessed sequence has only 2 points. -/
def shortScan : LaserScan := ⟨[1, 2, 3], 0, 10, 1/10⟩

/-- C5 witness: on the concrete scan `shortScan` (three valid ranges, two
of which survive the middle-half slice) the hypothesis of
`C5_ramp_false_on_few_points` holds and the flag is false. -/
theorem C5_ramp_false_on_few_points_witness :
    (preprocessedRanges shortScan).length < MIN_POINTS_FOR_GROUND ∧
    (lidar_callback initLineFollower shortScan).ramp_detected = false :=
  ⟨by decide, C5_ramp_false_on_few_points initLineFollower shortScan (by decide)⟩

/-- C6: the obstacle scan sets the flag exactly when some front-sector
sample is below `THRESHOLD_OBSTACLE_VERTICAL = 1` or some left- or
right-sector sample is below `THRESHOLD_OBSTACLE_HORIZONTAL = 1/8`; the
scan short-circuits (front first, then the left sector in reversed order,
then the right sector), and when every sample is at or above the threshold
of its sector the flag comes out false (the negation of the right-hand
side). -/
theorem C6_obstacle_detection_iff (self : LineFollower) (m : LaserScan) :
    (lidar_callback self m).obstacle_detected = true ↔
      ((∃ r ∈ frontRanges (preprocessedRanges m), r < THRESHOLD_OBSTACLE_VERTICAL) ∨
       (∃ r ∈ sideRangesLeft (preprocessedRanges m), r < THRESHOLD_OBSTACLE_HORIZONTAL) ∨
       (∃ r ∈ sideRangesRight (preprocessedRanges m), r < THRESHOLD_OBSTACLE_HORIZONTAL)) := by
  simp [lidar_callback, obstacleDetection, List.any_eq_true, List.mem_reverse,
    or_assoc]

/-- C8: the overrides reassign only `speed`; the emitted turn is exactly
the turn computed by the lane-deviation part, for every state and
message, hence for every combination of the three flags. -/
theorem C8_turn_never_overridden (self : LineFollower) (m : EdgeVectors) :
    (edge_vectors_callback self m).2.turnAxis = (laneDeviationEstimator self m).turn :=
  rfl

/- Least-squares facts for the ramp classifier. -/

/-- A nonzero centered sum of squares needs a nonempty sample. -/
theorem sxx_ne_zero_length_pos (x : ℕ → ℝ) (n : ℕ) (hx : sxx x n ≠ 0) : n ≠ 0 := by
  intro hn
  subst hn
  simp [sxx] at hx

/-- The mean of an affine image of the sample is the affine image of the
mean. -/
theorem sampleMean_affine (x y : ℕ → ℝ) (n : ℕ) (a b : ℝ) (hn : n ≠ 0)
    (h : ∀ i < n, y i = a * x i + b) :
    sampleMean y n = a * sampleMean x n + b := by
  have hn' : (n : ℝ) ≠ 0 := Nat.cast_ne_zero.mpr hn
  have hsum : ∑ i in Finset.range n, y i =
      a * ∑ i in Finset.range n, x i + (n : ℝ) * b := by
    rw [Finset.sum_congr rfl fun i hi => h i (Finset.mem_range.mp hi),
      Finset.sum_add_distrib, ← Finset.mul_sum, Finset.sum_const,
      Finset.card_range]
    ring
  unfold sampleMean
  rw [hsum]
  field_simp
  ring

/-- On affine data the centered cross sum is the slope times the centered
sum of squares. -/
theorem sxy_affine (x y : ℕ → ℝ) (n : ℕ) (a b : ℝ) (hn : n ≠ 0)
    (h : ∀ i < n, y i = a * x i + b) :
    sxy x y n = a * sxx x n := by
  have hm := sampleMean_affine x y n a b hn h
  unfold sxy sxx
  rw [Finset.mul_sum]
  refine Finset.sum_congr rfl fun i hi => ?_
  rw [h i (Finset.mem_range.mp hi), hm]
  ring

/-- On affine data with a nondegenerate regressor the fitted slope is the
slope of the data. -/
theorem olsSlope_affine (x y : ℕ → ℝ) (n : ℕ) (a b : ℝ)
    (h : ∀ i < n, y i = a * x i + b) (hx : sxx x n ≠ 0) :
    olsSlope x y n = a := by
  unfold olsSlope
  rw [sxy_affine x y n a b (sxx_ne_zero_length_pos x n hx) h]
  exact mul_div_cancel_right₀ a hx

/-- On affine data with a nondegenerate regressor the fitted intercept is
the intercept of the data. -/
theorem olsIntercept_affine (x y : ℕ → ℝ) (n : ℕ) (a b : ℝ)
    (h : ∀ i < n, y i = a * x i + b) (hx : sxx x n ≠ 0) :
    olsIntercept x y n = b := by
  unfold olsIntercept
  rw [olsSlope_affine x y n a b h hx,
    sampleMean_affine x y n a b (sxx_ne_zero_length_pos x n hx) h]
  ring

/-- Affine data is fitted with zero residual sum. -/
theorem ssRes_affine (x y : ℕ → ℝ) (n : ℕ) (a b : ℝ)
    (h : ∀ i < n, y i = a * x i + b) (hx : sxx x n ≠ 0) :
    ssRes x y n = 0 := by
  unfold ssRes
  refine Finset.sum_eq_zero fun i hi => ?_
  rw [olsSlope_affine x y n a b h hx, olsIntercept_affine x y n a b h hx,
    h i (Finset.mem_range.mp hi)]
  ring

/-- A zero residual sum gives a score of one. -/
theorem rSquared_of_ssRes_zero (x y : ℕ → ℝ) (n : ℕ) (h : ssRes x y n = 0) :
    rSquared x y n = 1 := by
  simp [rSquared, h]

/-- C9: with at least `MIN_POINTS_FOR_GROUND` preprocessed points, the
classifier sets `ramp_detected` exactly when the coefficient of
determination of the least-squares fit of the Cartesian projection
(sample `i` at angle `i * angle_increment`) exceeds
`R_SQUARED_THRESHOLD = 9/10`; in particular a point set lying exactly on
a non-vertical line (affine data with a nondegenerate regressor) yields
true, and a scatter whose score is below the threshold yields false. -/
theorem C9_ramp_classifier (self : LineFollower) (m : LaserScan)
    (hlen : MIN_POINTS_FOR_GROUND ≤ (preprocessedRanges m).length) :
    ((lidar_callback self m).ramp_detected = true ↔
      R_SQUARED_THRESHOLD <
        rSquared (scanX (preprocessedRanges m) m.angle_increment)
          (scanY (preprocessedRanges m) m.angle_increment)
          (preprocessedRanges m).length) ∧
    (∀ a b : ℝ,
      (∀ i < (preprocessedRanges m).length,
        scanY (preprocessedRanges m) m.angle_increment i =
          a * scanX (preprocessedRanges m) m.angle_increment i + b) →
      sxx (scanX (preprocessedRanges m) m.angle_increment)
          (preprocessedRanges m).length ≠ 0 →
      (lidar_callback self m).ramp_detected = true) ∧
    (rSquared (scanX (preprocessedRanges m) m.angle_increment)
        (scanY (preprocessedRanges m) m.angle_increment)
        (preprocessedRanges m).length < R_SQUARED_THRESHOLD →
      (lidar_callback self m).ramp_detected = false) := by
  have hiff : (lidar_callback self m).ramp_detected = true ↔
      R_SQUARED_THRESHOLD <
        rSquared (scanX (preprocessedRanges m) m.angle_increment)
          (scanY (preprocessedRanges m) m.angle_increment)
          (preprocessedRanges m).length := by
    have hbase : (lidar_callback self m).ramp_detected =
        rampDetection (preprocessedRanges m) m.angle_increment := rfl
    rw [hbase]
    by_cases hth : R_SQUARED_THRESHOLD <
        rSquared (scanX (preprocessedRanges m) m.angle_increment)
          (scanY (preprocessedRanges m) m.angle_increment)
          (preprocessedRanges m).length <;>
      simp [rampDetection, hlen, hth]
  refine ⟨hiff, ?_, ?_⟩
  · intro a b hcol hx
    refine hiff.mpr ?_
    rw [rSquared_of_ssRes_zero _ _ _
      (ssRes_affine _ _ (preprocessedRanges m).length a b hcol hx)]
    norm_num [R_SQUARED_THRESHOLD]
  · intro hlt
    rcases Bool.eq_false_or_eq_true (lidar_callback self m).ramp_detected with hT | hF
    · exact absurd (hiff.mp hT) (not_lt_of_lt hlt)
    · exact hF

/-- A scan with twenty valid unit ranges: the middle half keeps ten. -/
def rampScan : LaserScan := ⟨List.replicate 20 1, 0, 10, 1/10⟩

/-- C9 witness: the point-count hypothesis of `C9_ramp_classifier` holds
on the concrete scan `rampScan`, and so does the instantiated
conclusion. -/
theorem C9_ramp_classifier_witness :
    MIN_POINTS_FOR_GROUND ≤ (preprocessedRanges rampScan).length ∧
    (((lidar_callback initLineFollower rampScan).ramp_detected = true ↔
      R_SQUARED_THRESHOLD <
        rSquared (scanX (preprocessedRanges rampScan) rampScan.angle_increment)
          (scanY (preprocessedRanges rampScan) rampScan.angle_increment)
          (preprocessedRanges rampScan).length) ∧
    (∀ a b : ℝ,
      (∀ i < (preprocessedRanges rampScan).length,
        scanY (preprocessedRanges rampScan) rampScan.angle_increment i =
          a * scanX (preprocessedRanges rampScan) rampScan.angle_increment i + b) →
      sxx (scanX (preprocessedRanges rampScan) rampScan.angle_increment)
          (preprocessedRanges rampScan).length ≠ 0 →
      (lidar_callback initLineFollower rampScan).ramp_detected = true) ∧
    (rSquared (scanX (preprocessedRanges rampScan) rampScan.angle_increment)
        (scanY (preprocessedRanges rampScan) rampScan.angle_increment)
        (preprocessedRanges rampScan).length < R_SQUARED_THRESHOLD →
      (lidar_callback initLineFollower rampScan).ramp_detected = false)) :=
  ⟨by decide, C9_ramp_classifier initLineFollower rampScan (by decide)⟩

/-- C10: `lidar_callback` recomputes both hazard flags from the message
alone; two runs on the same scan from any two prior states agree on both
flags. -/
theorem C10_flags_depend_only_on_message (s t : LineFollower) (m : LaserScan) :
    (lidar_callback s m).ramp_detected = (lidar_callback t m).ramp_detected ∧
    (lidar_callback s m).obstacle_detected = (lidar_callback t m).obstacle_detected :=
  ⟨rfl, rfl⟩
